import Mathlib

/-!
Verification of the per-session TCP state machine of a Shadowsocks-style
relay (`src/tcp_processor.rs`).  The session state, the write path, the
SOCKS5 negotiation handlers and the event dispatcher are embedded as pure
Lean functions over an explicit session record.  I/O results (the outcome
of the one non-blocking `read`/`write` syscall a code path performs) are
passed in as oracle parameters; observable side effects (bytes written to a
socket, interest changes, deregistrations, DNS calls) are collected in an
effect list.  A top-level `none` models a Rust panic (`unwrap` on `None`,
out-of-range slice, `unimplemented!`).
-/

namespace SS

/-- Byte values are `Nat`s below 256; arithmetic that the source performs on
`u8` is taken modulo 256 explicitly. -/
abbrev Byte := Nat

/-- SOCKS method `METHOD_NOAUTH` from the source. -/
def METHOD_NOAUTH : Byte := 0

/-- SOCKS command `CMD_CONNECT` from the source. -/
def CMD_CONNECT : Byte := 1

/-- SOCKS command `CMD_UDP_ASSOCIATE` from the source. -/
def CMD_UDP_ASSOCIATE : Byte := 3

/-- `CheckAuthResult` from the source. -/
inductive CheckAuthResult where
  | Success
  | BadSocksHeader
  | NoAcceptableMethods
deriving DecidableEq

/-- `HandleStage` from the source. -/
inductive HandleStage where
  | Init
  | Addr
  | UDPAssoc
  | DNS
  | Connecting
  | Stream
  | Destroyed
deriving DecidableEq

/-- `ProcessResult<Vec<Token>>` from `relay`: `Success` or `Failed(tokens)`.
Tokens are modelled as `Nat`. -/
inductive ProcessResult where
  | Success
  | Failed (tokens : List Nat)
deriving DecidableEq

/-- Observable side effects of a session step: bytes actually accepted by a
socket write, event-interest changes (`change_status`), deregistrations in
`destroy`, `DNSResolver.remove_caller` and `DNSResolver.resolve` calls. -/
inductive Effect where
  | WroteLocal (bytes : List Byte)
  | WroteRemote (bytes : List Byte)
  | ChangeStatus (is_local : Bool) (writable : Bool)
  | Deregister (is_local : Bool)
  | RemoveCaller (token : Nat)
  | Resolve (hostname : String) (token : Nat)
deriving DecidableEq

/-- XOR a byte list against a keystream starting at position `pos`. -/
def xorStream (ks : Nat → Byte) : Nat → List Byte → List Byte
  | _, [] => []
  | pos, b :: rest => (Nat.xor b (ks pos)) % 256 :: xorStream ks (pos + 1) rest

/-- Modelled from the spec: the `Encryptor` state (its source file is not
part of this extract; spec section 4.B describes it).  A stateful stream
cipher: the first `encrypt` call prepends the session salt, thereafter only
ciphertext is emitted; the first `decrypt` call consumes a salt prefix,
buffering (`dec_pending`) when fewer than `salt_len` bytes are available.
The keystream, in reality derived from password and salt, is a shared
parameter `ks` of `encrypt`/`decrypt`; positions track how many payload
bytes each direction has processed. -/
structure Encryptor where
  salt : List Byte
  sent_salt : Bool
  enc_pos : Nat
  got_salt : Bool
  dec_pos : Nat
  dec_pending : List Byte
deriving DecidableEq

/-- Modelled from the spec: `Encryptor.encrypt` (spec 4.B).  Never fails for
a stream cipher; the `Option` mirrors the source signature. -/
def Encryptor.encrypt (ks : Nat → Byte) (e : Encryptor) (data : List Byte) :
    Option (Encryptor × List Byte) :=
  let ct := xorStream ks e.enc_pos data
  if e.sent_salt then
    some ({ e with enc_pos := e.enc_pos + data.length }, ct)
  else
    some ({ e with sent_salt := true, enc_pos := e.enc_pos + data.length },
          e.salt ++ ct)

/-- Modelled from the spec: `Encryptor.decrypt` (spec 4.B).  Consumes a
`saltLen`-byte salt prefix on first use, buffering on underrun; failure is
reserved for cipher-level errors which a stream cipher does not produce. -/
def Encryptor.decrypt (ks : Nat → Byte) (saltLen : Nat) (e : Encryptor)
    (data : List Byte) : Option (Encryptor × List Byte) :=
  if e.got_salt then
    some ({ e with dec_pos := e.dec_pos + data.length },
          xorStream ks e.dec_pos data)
  else
    let buf := e.dec_pending ++ data
    if buf.length < saltLen then
      some ({ e with dec_pending := buf }, [])
    else
      let rest := buf.drop saltLen
      some ({ e with got_salt := true, dec_pending := [], dec_pos := rest.length },
            xorStream ks 0 rest)

/-- A fresh encryptor as constructed in `TCPProcessor::new`, emitting
`salt`. -/
def Encryptor.fresh (salt : List Byte) : Encryptor :=
  { salt := salt, sent_salt := false, enc_pos := 0,
    got_salt := false, dec_pos := 0, dec_pending := [] }

/-- Render a 4-byte IPv4 address as a dotted-quad string. -/
def ipv4String (bytes : List Byte) : String :=
  String.intercalate "." (bytes.map toString)

/-- Modelled from the spec: `common::parse_header` (spec 4.D; its source
file is not part of this extract).  The address block is
`addr_type (1) | addr | port (2 BE)` with `addr_type` 0x01 (4-byte IPv4),
0x03 (length-prefixed domain) or 0x04 (16-byte IPv6); returns
`(addr_type, host_string, port, header_length)` or failure. -/
def parse_header (data : List Byte) : Option (Byte × String × Nat × Nat) :=
  match data with
  | [] => none
  | t :: rest =>
    if t = 1 then
      if 6 ≤ rest.length then
        some (1, ipv4String (rest.take 4),
              (rest.getD 4 0) * 256 + rest.getD 5 0, 7)
      else none
    else if t = 3 then
      match rest with
      | [] => none
      | l :: rest2 =>
        if l + 2 ≤ rest2.length then
          some (3, String.mk ((rest2.take l).map Char.ofNat),
                (rest2.getD l 0) * 256 + rest2.getD (l + 1) 0, l + 4)
        else none
    else if t = 4 then
      if 18 ≤ rest.length then
        some (4, String.intercalate ":" ((rest.take 16).map toString),
              (rest.getD 16 0) * 256 + rest.getD 17 0, 19)
      else none
    else none

/-- The session state of `TCPProcessor`.  Sockets are tracked by presence
(`Bool`, `Option<TcpStream>` in the source); `conf_server`/`conf_remote_port`
are the configured peer-relay address and port the session can read from its
config handle. -/
structure TCPProcessor where
  stage : HandleStage
  is_client : Bool
  conf_server : String
  conf_remote_port : Nat
  local_token : Option Nat
  remote_token : Option Nat
  local_sock : Bool
  remote_sock : Bool
  data_to_write_to_local : List Byte
  data_to_write_to_remote : List Byte
  server_address : Option (String × Nat)
  encryptor : Encryptor
deriving DecidableEq

/-- The `need_destroy!` macro: `Failed` with the session's tokens;
`local_token.unwrap()` panics (`none`) when the local token is absent. -/
def need_destroy (s : TCPProcessor) : Option ProcessResult :=
  match s.local_token with
  | none => none
  | some lt =>
    match s.remote_token with
    | some rt => some (ProcessResult.Failed [lt, rt])
    | none => some (ProcessResult.Failed [lt])

/-- The socket-presence flag of the side selected by `is_local_sock`. -/
def sideSock (s : TCPProcessor) (is_local_sock : Bool) : Bool :=
  if is_local_sock then s.local_sock else s.remote_sock

/-- The token of the side selected by `is_local_sock`. -/
def sideToken (s : TCPProcessor) (is_local_sock : Bool) : Option Nat :=
  if is_local_sock then s.local_token else s.remote_token

/-- Append bytes to the output buffer of the side selected by
`is_local_sock` (`data_to_write_to_local` / `data_to_write_to_remote`). -/
def bufAppend (s : TCPProcessor) (is_local_sock : Bool) (bs : List Byte) :
    TCPProcessor :=
  if is_local_sock then
    { s with data_to_write_to_local := s.data_to_write_to_local ++ bs }
  else
    { s with data_to_write_to_remote := s.data_to_write_to_remote ++ bs }

/-- The write effect for the side selected by `is_local_sock`. -/
def wroteEff (is_local_sock : Bool) (bs : List Byte) : Effect :=
  if is_local_sock then Effect.WroteLocal bs else Effect.WroteRemote bs

/-- `change_status`: unwraps the side's token (panic when absent) and
re-registers the socket with the new interest; the session state itself is
untouched, so only the effect is returned. -/
def change_to_writable (s : TCPProcessor) (is_local_sock : Bool) :
    Option (List Effect) :=
  match sideToken s is_local_sock with
  | none => none
  | some _ => some [Effect.ChangeStatus is_local_sock true]

/-- `change_status` back to readable-only interest. -/
def change_to_readable (s : TCPProcessor) (is_local_sock : Bool) :
    Option (List Effect) :=
  match sideToken s is_local_sock with
  | none => none
  | some _ => some [Effect.ChangeStatus is_local_sock false]

/-- The encryption stage of `write_to_sock`: the client encrypts data bound
for the remote socket, the server encrypts data bound for the local socket;
other directions pass plaintext through. -/
def encryptStep (ks : Nat → Byte) (s : TCPProcessor) (data : List Byte)
    (is_local_sock : Bool) : Option (Encryptor × List Byte) :=
  if (s.is_client && !is_local_sock) || (!s.is_client && is_local_sock) then
    Encryptor.encrypt ks s.encryptor data
  else
    some (s.encryptor, data)

/-- `write_to_sock`: empty data is a no-op success; otherwise encrypt per
direction (failure destroys), attempt one non-blocking write whose outcome
is the oracle `wres` (`none` = error, `some size` = `Ok(size)`); a write
error returns `Failed` with the session's tokens; a short write appends the
unwritten tail of the (post-encryption) data to the side's output buffer
and flips interest to writable; an absent socket behaves as a zero-byte
write with no error. -/
def write_to_sock (ks : Nat → Byte) (wres : Option Nat) (s : TCPProcessor)
    (data : List Byte) (is_local_sock : Bool) :
    Option (ProcessResult × TCPProcessor × List Effect) :=
  if data.length = 0 then some (ProcessResult.Success, s, [])
  else
    match encryptStep ks s data is_local_sock with
    | none =>
      match need_destroy s with
      | none => none
      | some r => some (r, s, [])
    | some (e, d) =>
      let s1 := { s with encryptor := e }
      if sideSock s1 is_local_sock then
        match wres with
        | none =>
          match need_destroy s1 with
          | none => none
          | some r => some (r, s1, [])
        | some size =>
          let uncomplete := d.length - size
          if 0 < uncomplete then
            let s2 := bufAppend s1 is_local_sock (d.drop (d.length - uncomplete))
            match change_to_writable s2 is_local_sock with
            | none => none
            | some effs =>
              some (ProcessResult.Success, s2, wroteEff is_local_sock (d.take size) :: effs)
          else
            some (ProcessResult.Success, s1, [wroteEff is_local_sock (d.take size)])
      else
        if 0 < d.length then
          let s2 := bufAppend s1 is_local_sock d
          match change_to_writable s2 is_local_sock with
          | none => none
          | some effs => some (ProcessResult.Success, s2, effs)
        else
          some (ProcessResult.Success, s1, [])

/-- `send_buf_data`: take the side's output buffer, clear it, and pass the
taken bytes to `write_to_sock`. -/
def send_buf_data (ks : Nat → Byte) (wres : Option Nat) (s : TCPProcessor)
    (is_local_sock : Bool) : Option (ProcessResult × TCPProcessor × List Effect) :=
  if is_local_sock then
    write_to_sock ks wres { s with data_to_write_to_local := [] }
      s.data_to_write_to_local is_local_sock
  else
    write_to_sock ks wres { s with data_to_write_to_remote := [] }
      s.data_to_write_to_remote is_local_sock

/-- `destroy` (`Processor::destroy`): a no-op once the stage is `Destroyed`;
otherwise set the stage to `Destroyed`, take and deregister the local socket
(`take().unwrap()` panics when it is already absent), take and deregister
the remote socket when present, and call `remove_caller` with the remote
token when one exists. -/
def destroy (s : TCPProcessor) : Option (TCPProcessor × List Effect) :=
  if s.stage = HandleStage.Destroyed then some (s, [])
  else
    match s.local_sock with
    | false => none
    | true =>
      let s1 := { s with stage := HandleStage.Destroyed, local_sock := false }
      let step2 : TCPProcessor × List Effect :=
        if s1.remote_sock then
          ({ s1 with remote_sock := false }, [Effect.Deregister false])
        else (s1, [])
      let effs3 : List Effect :=
        match step2.1.remote_token with
        | some t => [Effect.RemoveCaller t]
        | none => []
      some (step2.1, Effect.Deregister true :: step2.2 ++ effs3)

/-- `receive_data`: one non-blocking read whose outcome is the oracle
`rres` (`none` = `Err`, `some buf` = `Ok` with those bytes).  The client
decrypts reads from the remote socket, the server decrypts reads from the
local socket; a decrypt failure destroys the session; a read error or an
absent socket merely yields `None` data. -/
def receive_data (ks : Nat → Byte) (saltLen : Nat) (rres : Option (List Byte))
    (s : TCPProcessor) (is_local_sock : Bool) :
    Option (Option (List Byte) × TCPProcessor × List Effect) :=
  if sideSock s is_local_sock then
    match rres with
    | some buf =>
      if (s.is_client && !is_local_sock) || (!s.is_client && is_local_sock) then
        match Encryptor.decrypt ks saltLen s.encryptor buf with
        | some (e, data) => some (some data, { s with encryptor := e }, [])
        | none =>
          match destroy s with
          | none => none
          | some (s1, effs) => some (none, s1, effs)
      else
        some (some buf, s, [])
    | none => some (none, s, [])
  else
    some (none, s, [])

/-- `check_auth_method`: validate the SOCKS5 method-selection message.  The
length comparison `data.len() as u8 != nmethods + 2` is `u8` arithmetic,
modelled modulo 256. -/
def check_auth_method (data : List Byte) : CheckAuthResult :=
  if data.length < 3 then CheckAuthResult.BadSocksHeader
  else if data.getD 0 0 ≠ 5 then CheckAuthResult.BadSocksHeader
  else if data.getD 1 0 < 1 ∨ data.length % 256 ≠ (data.getD 1 0 + 2) % 256 then
    CheckAuthResult.BadSocksHeader
  else if (data.drop 2).any (fun m => m == METHOD_NOAUTH) = false then
    CheckAuthResult.NoAcceptableMethods
  else CheckAuthResult.Success

/-- `handle_stage_stream`: pipe the data to the remote socket. -/
def handle_stage_stream (ks : Nat → Byte) (wres : Option Nat)
    (s : TCPProcessor) (data : List Byte) :
    Option (ProcessResult × TCPProcessor × List Effect) :=
  write_to_sock ks wres s data false

/-- `handle_stage_connecting`: buffer the data for the remote socket. -/
def handle_stage_connecting (s : TCPProcessor) (data : List Byte) :
    Option (ProcessResult × TCPProcessor × List Effect) :=
  some (ProcessResult.Success,
        { s with data_to_write_to_remote := s.data_to_write_to_remote ++ data },
        [])

/-- The canned SOCKS5 success reply written by the client in stage `Addr`. -/
def socksReply : List Byte := [5, 0, 0, 1, 0, 0, 0, 0, 16, 16]

/-- The shared tail of `handle_stage_addr` after the client has stripped the
SOCKS framing: parse the address block, record `server_address`, advance to
stage `DNS`; the client then writes the canned reply, buffers the address
block plus payload for the remote, and resolves the literal hostname
`"127.0.0.1"`; the server buffers the post-header payload and resolves the
parsed destination host.  `remote_token.unwrap()` panics when absent. -/
def handle_stage_addr_core (ks : Nat → Byte) (wres : Option Nat)
    (s : TCPProcessor) (data : List Byte) :
    Option (ProcessResult × TCPProcessor × List Effect) :=
  match parse_header data with
  | none =>
    match need_destroy s with
    | none => none
    | some r => some (r, s, [])
  | some (_t, remote_address, remote_port, header_length) =>
    let s1 := { s with stage := HandleStage.DNS,
                       server_address := some (remote_address, remote_port) }
    if s1.is_client then
      match write_to_sock ks wres s1 socksReply true with
      | none => none
      | some (ProcessResult.Success, s2, effs) =>
        let s3 := { s2 with data_to_write_to_remote := s2.data_to_write_to_remote ++ data }
        match s3.remote_token with
        | none => none
        | some rt =>
          some (ProcessResult.Success, s3, effs ++ [Effect.Resolve "127.0.0.1" rt])
      | some (r, s2, effs) => some (r, s2, effs)
    else
      let s2 :=
        if header_length < data.length then
          { s1 with data_to_write_to_remote :=
              s1.data_to_write_to_remote ++ data.drop header_length }
        else s1
      match s2.remote_token with
      | none => none
      | some rt =>
        some (ProcessResult.Success, s2, [Effect.Resolve remote_address rt])

/-- `handle_stage_addr`: the client inspects the command byte `data[1]`
(panic when absent): UDP ASSOCIATE hits `unimplemented!` (panic), CONNECT
strips the three framing bytes (`&data[3..]` panics when the data is
shorter), any other command destroys; the server passes the whole buffer
through. -/
def handle_stage_addr (ks : Nat → Byte) (wres : Option Nat)
    (s : TCPProcessor) (data : List Byte) :
    Option (ProcessResult × TCPProcessor × List Effect) :=
  if s.is_client then
    match data.getD 1 0, data.length with
    | _, 0 => none
    | _, 1 => none
    | cmd, n =>
      if cmd = CMD_UDP_ASSOCIATE then none
      else if cmd = CMD_CONNECT then
        if n < 3 then none
        else handle_stage_addr_core ks wres s (data.drop 3)
      else
        match need_destroy s with
        | none => none
        | some r => some (r, s, [])
  else
    handle_stage_addr_core ks wres s data

/-- `handle_stage_init`: run `check_auth_method`; on `Success` write the
selection reply `[5, 0]` (propagating a non-`Success` write result) and
advance to `Addr`; on `NoAcceptableMethods` write `[5, 0xFF]` (result
discarded) and destroy; on `BadSocksHeader` destroy without writing. -/
def handle_stage_init (ks : Nat → Byte) (wres : Option Nat)
    (s : TCPProcessor) (data : List Byte) :
    Option (ProcessResult × TCPProcessor × List Effect) :=
  match check_auth_method data with
  | CheckAuthResult.Success =>
    match write_to_sock ks wres s [5, 0] true with
    | none => none
    | some (ProcessResult.Success, s1, effs) =>
      some (ProcessResult.Success, { s1 with stage := HandleStage.Addr }, effs)
    | some (r, s1, effs) => some (r, s1, effs)
  | CheckAuthResult.BadSocksHeader =>
    match need_destroy s with
    | none => none
    | some r => some (r, s, [])
  | CheckAuthResult.NoAcceptableMethods =>
    match write_to_sock ks wres s [5, 255] true with
    | none => none
    | some (_r, s1, effs) =>
      match need_destroy s1 with
      | none => none
      | some r => some (r, s1, effs)

/-- Prepend already-collected effects to a step outcome. -/
def withEffs (effs : List Effect)
    (x : Option (ProcessResult × TCPProcessor × List Effect)) :
    Option (ProcessResult × TCPProcessor × List Effect) :=
  x.map (fun y => (y.1, y.2.1, effs ++ y.2.2))

/-- `on_local_read`: read (and decrypt when the server side), dispatch on
the stage; an empty read is EOF and destroys; a failed read yields
`Success` with the session unchanged. -/
def on_local_read (ks : Nat → Byte) (saltLen : Nat) (rres : Option (List Byte))
    (wres : Option Nat) (s : TCPProcessor) :
    Option (ProcessResult × TCPProcessor × List Effect) :=
  match receive_data ks saltLen rres s true with
  | none => none
  | some (some data, s1, effs) =>
    if 0 < data.length then
      match s1.stage with
      | HandleStage.Init => withEffs effs (handle_stage_init ks wres s1 data)
      | HandleStage.Addr => withEffs effs (handle_stage_addr ks wres s1 data)
      | HandleStage.Connecting => withEffs effs (handle_stage_connecting s1 data)
      | HandleStage.Stream => withEffs effs (handle_stage_stream ks wres s1 data)
      | _ => some (ProcessResult.Success, s1, effs)
    else
      match need_destroy s1 with
      | none => none
      | some r => some (r, s1, effs)
  | some (none, s1, effs) => some (ProcessResult.Success, s1, effs)

/-- `on_remote_read`: read (and decrypt when the client side) and forward
to the local socket; an empty read destroys; a failed read yields
`Success`. -/
def on_remote_read (ks : Nat → Byte) (saltLen : Nat) (rres : Option (List Byte))
    (wres : Option Nat) (s : TCPProcessor) :
    Option (ProcessResult × TCPProcessor × List Effect) :=
  match receive_data ks saltLen rres s false with
  | none => none
  | some (some data, s1, effs) =>
    if 0 < data.length then
      withEffs effs (write_to_sock ks wres s1 data true)
    else
      match need_destroy s1 with
      | none => none
      | some r => some (r, s1, effs)
  | some (none, s1, effs) => some (ProcessResult.Success, s1, effs)

/-- `on_local_write`: drain the local output buffer when non-empty; when
the buffer is empty afterwards, switch back to readable-only interest. -/
def on_local_write (ks : Nat → Byte) (wres : Option Nat) (s : TCPProcessor) :
    Option (ProcessResult × TCPProcessor × List Effect) :=
  match (if 0 < s.data_to_write_to_local.length then send_buf_data ks wres s true
         else some (ProcessResult.Success, s, [])) with
  | none => none
  | some (res, s1, effs) =>
    if s1.data_to_write_to_local.length = 0 then
      match change_to_readable s1 true with
      | none => none
      | some effs2 => some (res, s1, effs ++ effs2)
    else some (res, s1, effs)

/-- `on_remote_write`: set the stage to `Stream` unconditionally, then
drain the remote output buffer when non-empty; when the buffer is empty
afterwards, switch back to readable-only interest. -/
def on_remote_write (ks : Nat → Byte) (wres : Option Nat) (s : TCPProcessor) :
    Option (ProcessResult × TCPProcessor × List Effect) :=
  match (if 0 < ({ s with stage := HandleStage.Stream }).data_to_write_to_remote.length then
           send_buf_data ks wres { s with stage := HandleStage.Stream } false
         else some (ProcessResult.Success, { s with stage := HandleStage.Stream }, [])) with
  | none => none
  | some (res, s1, effs) =>
    if s1.data_to_write_to_remote.length = 0 then
      match change_to_readable s1 false with
      | none => none
      | some effs2 => some (res, s1, effs ++ effs2)
    else some (res, s1, effs)

/-- The event-readiness flags `mio::EventSet` delivers. -/
structure EventSet where
  is_error : Bool
  is_readable : Bool
  is_writable : Bool
  is_hup : Bool
deriving DecidableEq

/-- `Processor::process`: route an event by token.  `rres` is the outcome
of the read the read-handler may perform, `wres1` the outcome of the write
that handler may perform, `wres2` the outcome of the drain write the
write-handler may perform.  Error events destroy; readable-or-hup events
run the read handler (propagating non-`Success`); writable events run the
write handler. -/
def process (ks : Nat → Byte) (saltLen : Nat) (rres : Option (List Byte))
    (wres1 wres2 : Option Nat) (s : TCPProcessor) (token : Nat)
    (ev : EventSet) : Option (ProcessResult × TCPProcessor × List Effect) :=
  if s.local_token = some token then
    if ev.is_error then
      match need_destroy s with
      | none => none
      | some r => some (r, s, [])
    else
      match (if ev.is_readable || ev.is_hup then on_local_read ks saltLen rres wres1 s
             else some (ProcessResult.Success, s, [])) with
      | none => none
      | some (ProcessResult.Success, s1, effs) =>
        match (if ev.is_writable then on_local_write ks wres2 s1
               else some (ProcessResult.Success, s1, [])) with
        | none => none
        | some (r2, s2, effs2) => some (r2, s2, effs ++ effs2)
      | some (r, s1, effs) => some (r, s1, effs)
  else if s.remote_token = some token then
    if ev.is_error then
      match need_destroy s with
      | none => none
      | some r => some (r, s, [])
    else
      match (if ev.is_readable || ev.is_hup then on_remote_read ks saltLen rres wres1 s
             else some (ProcessResult.Success, s, [])) with
      | none => none
      | some (ProcessResult.Success, s1, effs) =>
        match (if ev.is_writable then on_remote_write ks wres2 s1
               else some (ProcessResult.Success, s1, [])) with
        | none => none
        | some (r2, s2, effs2) => some (r2, s2, effs ++ effs2)
      | some (r, s1, effs) => some (r, s1, effs)
  else
    some (ProcessResult.Success, s, [])

/-- All bytes a list of effects delivered to the remote socket, in order. -/
def wroteRemoteBytes (effs : List Effect) : List Byte :=
  effs.foldr (fun e acc => match e with | Effect.WroteRemote bs => bs ++ acc | _ => acc) []

/-- A concrete keystream for scenario evaluation. -/
def demoKs : Nat → Byte := fun i => i % 256

/-- The all-zero keystream (encryption is then byte-identity after the
salt), used where only buffering behaviour matters. -/
def zeroKs : Nat → Byte := fun _ => 0

/-- A client-role session in stage `Stream` with both sockets present,
tokens 1 and 2, empty output buffers and a fresh encryptor with salt
`[9]`. -/
def c1s0 : TCPProcessor :=
  { stage := HandleStage.Stream, is_client := true, conf_server := "peer.example",
    conf_remote_port := 8388, local_token := some 1, remote_token := some 2,
    local_sock := true, remote_sock := true, data_to_write_to_local := [],
    data_to_write_to_remote := [], server_address := none,
    encryptor := Encryptor.fresh [9] }

/-- First event of the C1 scenario: the local peer sends plaintext
`[1,2,3,4]`, the remote socket accepts only 2 bytes of the ciphertext. -/
def c1step1 : Option (ProcessResult × TCPProcessor × List Effect) :=
  on_local_read demoKs 1 (some [1, 2, 3, 4]) (some 2) c1s0

/-- The session state after the first C1 event. -/
def c1s1 : TCPProcessor := (c1step1.getD (ProcessResult.Success, c1s0, [])).2.1

/-- Second event of the C1 scenario: the remote socket becomes writable and
accepts everything offered. -/
def c1step2 : Option (ProcessResult × TCPProcessor × List Effect) :=
  on_remote_write demoKs (some 3) c1s1

/-- The ciphertext bytes the two C1 events delivered to the remote socket,
in order. -/
def c1delivered : List Byte :=
  wroteRemoteBytes ((c1step1.getD (ProcessResult.Success, c1s0, [])).2.2) ++
    wroteRemoteBytes ((c1step2.getD (ProcessResult.Success, c1s0, [])).2.2)

/-- A client-role session in stage `Addr` (SOCKS hello already accepted)
whose configured peer-relay address is `host`; the remote socket does not
exist yet. -/
def c2state (host : String) : TCPProcessor :=
  { stage := HandleStage.Addr, is_client := true, conf_server := host,
    conf_remote_port := 8388, local_token := some 1, remote_token := some 2,
    local_sock := true, remote_sock := false, data_to_write_to_local := [],
    data_to_write_to_remote := [], server_address := none,
    encryptor := Encryptor.fresh [9] }

/-- The state `handle_stage_addr` leaves behind in the C2 scenario: stage
`DNS`, destination recorded, address block buffered for the remote. -/
def c2expected (host : String) : TCPProcessor :=
  { stage := HandleStage.DNS, is_client := true, conf_server := host,
    conf_remote_port := 8388, local_token := some 1, remote_token := some 2,
    local_sock := true, remote_sock := false, data_to_write_to_local := [],
    data_to_write_to_remote := [1, 127, 0, 0, 1, 0, 80],
    server_address := some ("127.0.0.1", 80),
    encryptor := Encryptor.fresh [9] }

/-- A readable-only event set. -/
def evRead : EventSet :=
  { is_error := false, is_readable := true, is_writable := false, is_hup := false }

/-- A writable-only event set. -/
def evWrite : EventSet :=
  { is_error := false, is_readable := false, is_writable := true, is_hup := false }

/-- A client-role `Stream` session whose remote output buffer already holds
the byte `100` and whose encryptor has already emitted its salt. -/
def c4s0 : TCPProcessor :=
  { c1s0 with data_to_write_to_remote := [100],
              encryptor := { Encryptor.fresh [9] with sent_salt := true } }

/-- The encryptor state after the C5 witness write (`[7, 8]` encrypted from
position 0 of an already-salted stream). -/
def c5e : Encryptor :=
  { salt := [9], sent_salt := true, enc_pos := 2,
    got_salt := false, dec_pos := 0, dec_pending := [] }

/-- The encryptor state after the C9 witness write (`[7]` encrypted by a
fresh encryptor with salt `[9]`). -/
def c9e : Encryptor :=
  { salt := [9], sent_salt := true, enc_pos := 1,
    got_salt := false, dec_pos := 0, dec_pending := [] }

theorem xorStream_length (ks : Nat → Byte) :
    ∀ pos data, (xorStream ks pos data).length = data.length := by
  intro pos data
  induction data generalizing pos with
  | nil => rfl
  | cons b rest ih => simp [xorStream, ih]

theorem encryptStep_length {ks : Nat → Byte} {s : TCPProcessor}
    {data d : List Byte} {il : Bool} {e : Encryptor}
    (h2 : encryptStep ks s data il = some (e, d)) : data.length ≤ d.length := by
  unfold encryptStep Encryptor.encrypt at h2
  split at h2
  · split at h2
    · simp only [Option.some.injEq, Prod.mk.injEq] at h2
      rw [← h2.2, xorStream_length]
    · simp only [Option.some.injEq, Prod.mk.injEq] at h2
      rw [← h2.2]
      simp [xorStream_length]
  · simp only [Option.some.injEq, Prod.mk.injEq] at h2
    rw [← h2.2]

theorem encryptStep_some_ne_nil {ks : Nat → Byte} {s : TCPProcessor}
    {data d : List Byte} {il : Bool} {e : Encryptor}
    (h1 : data ≠ []) (h2 : encryptStep ks s data il = some (e, d)) : d ≠ [] := by
  have hlen : 0 < data.length := List.length_pos.mpr h1
  have := encryptStep_length h2
  intro hd
  rw [hd] at this
  simp only [List.length_nil, Nat.le_zero] at this
  omega

theorem write_to_sock_stage {ks : Nat → Byte} {wres : Option Nat}
    {s : TCPProcessor} {data : List Byte} {il : Bool} {r : ProcessResult}
    {s1 : TCPProcessor} {effs : List Effect}
    (h : write_to_sock ks wres s data il = some (r, s1, effs)) :
    s1.stage = s.stage := by
  unfold write_to_sock at h
  simp only [bufAppend] at h
  repeat' split at h
  all_goals simp_all
  all_goals (obtain ⟨h1, h2, h3⟩ := h; rw [← h2])

theorem send_buf_data_stage {ks : Nat → Byte} {wres : Option Nat}
    {s : TCPProcessor} {il : Bool} {r : ProcessResult}
    {s1 : TCPProcessor} {effs : List Effect}
    (h : send_buf_data ks wres s il = some (r, s1, effs)) :
    s1.stage = s.stage := by
  unfold send_buf_data at h
  split at h
  · have h2 := write_to_sock_stage h
    exact h2
  · have h2 := write_to_sock_stage h
    exact h2

/-- C1: the claim — one `encrypt` on the sending side and one `decrypt` on
the other round-trips every client `Stream` plaintext, the short-write
remainder never passing through `encrypt` twice — fails on the code: the
remainder appended to `data_to_write_to_remote` is already ciphertext, and
`send_buf_data` feeds it back through `write_to_sock`, which encrypts it a
second time.  Concretely, plaintext `[1,2,3,4]` with a 2-byte short write
delivers `[9,1,7,4,1]` to the remote instead of the single-encryption
`[9,1,3,1,7]`, and one application of `decrypt` yields `[1,6,6,2]`, not the
original plaintext. -/
theorem C1_short_write_remainder_double_encrypted :
    c1step1.map (fun y => (y.1, y.2.2)) =
      some (ProcessResult.Success,
            [Effect.WroteRemote [9, 1], Effect.ChangeStatus false true]) ∧
    c1s1.data_to_write_to_remote = [3, 1, 7] ∧
    c1step2.map (fun y => (y.1, y.2.2)) =
      some (ProcessResult.Success,
            [Effect.WroteRemote [7, 4, 1], Effect.ChangeStatus false false]) ∧
    c1delivered = [9, 1, 7, 4, 1] ∧
    (Encryptor.encrypt demoKs (Encryptor.fresh [9]) [1, 2, 3, 4]).map (fun y => y.2) =
      some [9, 1, 3, 1, 7] ∧
    c1delivered ≠ [9, 1, 3, 1, 7] ∧
    (Encryptor.decrypt demoKs 1 (Encryptor.fresh []) c1delivered).map (fun y => y.2) =
      some [1, 6, 6, 2] ∧
    ([1, 6, 6, 2] : List Byte) ≠ [1, 2, 3, 4] := by
  refine ⟨rfl, rfl, rfl, rfl, rfl, by decide, rfl, by decide⟩

/-- C2: in stage `Addr` a client CONNECT request does write the canned
reply and buffer the address block for the remote, but the DNS resolution
the code starts is for the literal hostname `"127.0.0.1"`, whatever peer
relay host the configuration names — here `"peer.example"`. -/
theorem C2_addr_stage_resolves_hardcoded_loopback :
    (∀ host : String,
      handle_stage_addr demoKs (some 10) (c2state host)
          [5, 1, 0, 1, 127, 0, 0, 1, 0, 80] =
        some (ProcessResult.Success, c2expected host,
              [Effect.WroteLocal socksReply, Effect.Resolve "127.0.0.1" 2])) ∧
    (c2expected "peer.example").data_to_write_to_remote = [1, 127, 0, 0, 1, 0, 80] ∧
    (c2state "peer.example").conf_server = "peer.example" ∧
    "peer.example" ≠ "127.0.0.1" := by
  refine ⟨fun host => rfl, rfl, rfl, by decide⟩

/-- C3: a failed read does not destroy the session: delivering a readable
event whose `read` errors to `process` returns `Success` with the session
unchanged (stage still `Stream`, no deregistration, no `Failed` tokens),
contradicting the destroy-on-I/O-error rule that `write_to_sock` follows
for write errors. -/
theorem C3_read_error_leaves_session_alive :
    process demoKs 1 none (some 0) (some 0) c1s0 1 evRead =
      some (ProcessResult.Success, c1s0, []) ∧
    c1s0.stage = HandleStage.Stream ∧
    HandleStage.Stream ≠ HandleStage.Destroyed := by
  refine ⟨rfl, rfl, by decide⟩

/-- C4: write ordering is violated on the code: with `[100]` still buffered
in `data_to_write_to_remote`, a new `write_to_sock` call (via
`handle_stage_stream`) sends its byte `[1]` to the socket at once, ahead of
the buffered byte, and on a short write the remainder is appended after the
buffered bytes (`[100, 1]`), not placed before them (`[1, 100]`). -/
theorem C4_buffered_bytes_overtaken_and_remainder_appended :
    (on_local_read zeroKs 1 (some [1]) (some 1) c4s0).map
        (fun y => (y.1, y.2.1.data_to_write_to_remote, y.2.2)) =
      some (ProcessResult.Success, [100], [Effect.WroteRemote [1]]) ∧
    (on_local_read zeroKs 1 (some [1]) (some 0) c4s0).map
        (fun y => (y.1, y.2.1.data_to_write_to_remote, y.2.2)) =
      some (ProcessResult.Success, [100, 1],
            [Effect.WroteRemote [], Effect.ChangeStatus false true]) ∧
    c4s0.data_to_write_to_remote = [100] ∧
    ([100, 1] : List Byte) ≠ [1, 100] := by
  refine ⟨rfl, rfl, rfl, by decide⟩

/-- C5: the `write_to_sock` contract: empty input is a no-op success; a
write error returns `Failed` with the session's tokens; a short write of
`n` of the `d.length` post-encryption bytes appends exactly the unwritten
tail `d.drop n` to that side's output buffer, requests writable interest,
and returns `Success`. -/
theorem C5_write_to_sock_contract (ks : Nat → Byte) :
    (∀ (s : TCPProcessor) (il : Bool) (wres : Option Nat),
      write_to_sock ks wres s [] il = some (ProcessResult.Success, s, [])) ∧
    (∀ (s : TCPProcessor) (il : Bool) (data : List Byte) (e : Encryptor)
        (d : List Byte) (lt : Nat),
      data ≠ [] → encryptStep ks s data il = some (e, d) →
      sideSock s il = true → s.local_token = some lt →
      write_to_sock ks none s data il =
        some (ProcessResult.Failed (lt :: s.remote_token.toList),
              { s with encryptor := e }, [])) ∧
    (∀ (s : TCPProcessor) (il : Bool) (data : List Byte) (e : Encryptor)
        (d : List Byte) (n tk : Nat),
      data ≠ [] → encryptStep ks s data il = some (e, d) →
      sideSock s il = true → sideToken s il = some tk → n < d.length →
      write_to_sock ks (some n) s data il =
        some (ProcessResult.Success,
              bufAppend { s with encryptor := e } il (d.drop n),
              [wroteEff il (d.take n), Effect.ChangeStatus il true])) := by
  refine ⟨fun s il wres => rfl, ?_, ?_⟩
  · intro s il data e d lt h1 h2 h3 h4
    have hlen : ¬ data.length = 0 := by
      have := List.length_pos.mpr h1
      omega
    cases hrt : s.remote_token with
    | none =>
      cases il <;> simp_all [write_to_sock, sideSock, need_destroy, Option.toList]
    | some rt =>
      cases il <;> simp_all [write_to_sock, sideSock, need_destroy, Option.toList]
  · intro s il data e d n tk h1 h2 h3 h4 h5
    have hlen : ¬ data.length = 0 := by
      have := List.length_pos.mpr h1
      omega
    have h6 : 0 < d.length - n := by omega
    have h7 : d.length - (d.length - n) = n := by omega
    cases il <;>
      simp_all [write_to_sock, sideSock, sideToken, change_to_writable,
                bufAppend, wroteEff]

/-- C5 witness: a concrete short write — 1 of 2 bytes accepted — on the
client-to-remote side of a `Stream` session. -/
theorem C5_witness :
    write_to_sock zeroKs (some 1) c4s0 [7, 8] false =
      some (ProcessResult.Success,
            bufAppend { c4s0 with encryptor := c5e } false ([7, 8].drop 1),
            [wroteEff false ([7, 8].take 1), Effect.ChangeStatus false true]) :=
  (C5_write_to_sock_contract zeroKs).2.2 c4s0 false [7, 8] c5e [7, 8] 1 2
    (by decide) (by decide) (by decide) (by decide) (by decide)

/-- C6: `handle_stage_init` on a client session: `Success` from
`check_auth_method` writes exactly `[5, 0]` and advances the stage to
`Addr` with result `Success`; `NoAcceptableMethods` writes exactly
`[5, 255]` and returns `Failed` with the session's tokens;
`BadSocksHeader` returns `Failed` without writing anything. -/
theorem C6_handle_stage_init_outcomes (ks : Nat → Byte) (s : TCPProcessor)
    (data : List Byte) (lt : Nat) (hc : s.is_client = true)
    (hs : s.local_sock = true) (ht : s.local_token = some lt) :
    (check_auth_method data = CheckAuthResult.Success →
      handle_stage_init ks (some 2) s data =
        some (ProcessResult.Success, { s with stage := HandleStage.Addr },
              [Effect.WroteLocal [5, 0]])) ∧
    (check_auth_method data = CheckAuthResult.NoAcceptableMethods →
      handle_stage_init ks (some 2) s data =
        some (ProcessResult.Failed (lt :: s.remote_token.toList), s,
              [Effect.WroteLocal [5, 255]])) ∧
    (check_auth_method data = CheckAuthResult.BadSocksHeader →
      handle_stage_init ks (some 2) s data =
        some (ProcessResult.Failed (lt :: s.remote_token.toList), s, [])) := by
  refine ⟨?_, ?_, ?_⟩ <;> intro h <;>
    obtain ⟨st, ic, cs, crp, ltk, rtk, ls, rs, dl, dr, sa, en⟩ := s <;>
    cases rtk <;>
      simp_all [handle_stage_init, write_to_sock, encryptStep, sideSock,
                need_destroy, wroteEff, Option.toList]

/-- C6 witness: the three outcomes at concrete hellos `[5,1,0]`, `[5,1,2]`
and `[4,1,0]` on a concrete client session. -/
theorem C6_witness :
    handle_stage_init demoKs (some 2) (c2state "peer.example") [5, 1, 0] =
      some (ProcessResult.Success,
            { c2state "peer.example" with stage := HandleStage.Addr },
            [Effect.WroteLocal [5, 0]]) ∧
    handle_stage_init demoKs (some 2) (c2state "peer.example") [5, 1, 2] =
      some (ProcessResult.Failed [1, 2], c2state "peer.example",
            [Effect.WroteLocal [5, 255]]) ∧
    handle_stage_init demoKs (some 2) (c2state "peer.example") [4, 1, 0] =
      some (ProcessResult.Failed [1, 2], c2state "peer.example", []) :=
  ⟨(C6_handle_stage_init_outcomes demoKs (c2state "peer.example") [5, 1, 0] 1
      rfl rfl rfl).1 (by decide),
   (C6_handle_stage_init_outcomes demoKs (c2state "peer.example") [5, 1, 2] 1
      rfl rfl rfl).2.1 (by decide),
   (C6_handle_stage_init_outcomes demoKs (c2state "peer.example") [4, 1, 0] 1
      rfl rfl rfl).2.2 (by decide)⟩

set_option maxRecDepth 8000 in
/-- C7 counterexample: the claim compares the total length with
`d[1] + 2` as unbounded integers, but the code casts the length to `u8`
first; a 260-byte hello with `nmethods = 2` passes the check (260 mod 256 =
4 = 2 + 2) and returns `Success` although `260 ≠ 4`. -/
theorem C7_counterexample :
    check_auth_method (5 :: 2 :: List.replicate 258 0) = CheckAuthResult.Success ∧
    (5 :: 2 :: List.replicate 258 0).length ≠
      (5 :: 2 :: List.replicate 258 0).getD 1 0 + 2 := by
  constructor
  · decide
  · decide

/-- C7 amended: `check_auth_method d` returns `Success` iff `d` has length
at least 3, `d[0] = 5`, `d[1] ≥ 1`, the total length of `d` is congruent to
`d[1] + 2` modulo 256 (the code compares lengths as `u8`), and some byte of
`d.drop 2` equals 0; it returns `BadSocksHeader` iff one of the first four
conditions fails and `NoAcceptableMethods` iff only the last fails. -/
theorem C7_check_auth_method_characterisation (d : List Byte)
    (_hb : ∀ b ∈ d, b < 256) :
    (check_auth_method d = CheckAuthResult.Success ↔
      (3 ≤ d.length ∧ d.getD 0 0 = 5 ∧ 1 ≤ d.getD 1 0 ∧
        d.length % 256 = (d.getD 1 0 + 2) % 256 ∧ ∃ b ∈ d.drop 2, b = 0)) ∧
    (check_auth_method d = CheckAuthResult.BadSocksHeader ↔
      ¬(3 ≤ d.length ∧ d.getD 0 0 = 5 ∧ 1 ≤ d.getD 1 0 ∧
        d.length % 256 = (d.getD 1 0 + 2) % 256)) ∧
    (check_auth_method d = CheckAuthResult.NoAcceptableMethods ↔
      ((3 ≤ d.length ∧ d.getD 0 0 = 5 ∧ 1 ≤ d.getD 1 0 ∧
        d.length % 256 = (d.getD 1 0 + 2) % 256) ∧ ¬∃ b ∈ d.drop 2, b = 0)) := by
  have hany : ((d.drop 2).any (fun m => m == METHOD_NOAUTH)) = true ↔
      ∃ b ∈ d.drop 2, b = 0 := by
    simp [List.any_eq_true, METHOD_NOAUTH]
  unfold check_auth_method
  split_ifs with h1 h2 h3 h4
  · have hp1 : ¬ 3 ≤ d.length := by omega
    refine ⟨?_, ?_, ?_⟩ <;> simp_all
  · have hp1 : 3 ≤ d.length := by omega
    refine ⟨?_, ?_, ?_⟩ <;> simp_all
  · have hp1 : 3 ≤ d.length := by omega
    have hp2 : d.getD 0 0 = 5 := by simpa using h2
    rcases h3 with h3 | h3
    · have hp3 : ¬ 1 ≤ d.getD 1 0 := not_le.mpr h3
      refine ⟨?_, ?_, ?_⟩ <;> simp_all
    · refine ⟨?_, ?_, ?_⟩ <;> simp_all
  · have hp1 : 3 ≤ d.length := by omega
    have hp2 : d.getD 0 0 = 5 := by simpa using h2
    push_neg at h3
    obtain ⟨hp3, hp4⟩ := h3
    have hp5 : ¬ ∃ b ∈ d.drop 2, b = 0 := by
      rw [← hany]
      simp [h4]
    refine ⟨?_, ?_, ?_⟩ <;> simp_all
  · have hp1 : 3 ≤ d.length := by omega
    have hp2 : d.getD 0 0 = 5 := by simpa using h2
    push_neg at h3
    obtain ⟨hp3, hp4⟩ := h3
    have hp5 : ∃ b ∈ d.drop 2, b = 0 := by
      rw [← hany]
      simpa using h4
    refine ⟨?_, ?_, ?_⟩ <;> simp_all

/-- C7 witness: the characterisation applied to the minimal valid hello
`[5, 1, 0]`. -/
theorem C7_witness :
    check_auth_method [5, 1, 0] = CheckAuthResult.Success ↔
      (3 ≤ ([5, 1, 0] : List Byte).length ∧ ([5, 1, 0] : List Byte).getD 0 0 = 5 ∧
        1 ≤ ([5, 1, 0] : List Byte).getD 1 0 ∧
        ([5, 1, 0] : List Byte).length % 256 =
          (([5, 1, 0] : List Byte).getD 1 0 + 2) % 256 ∧
        ∃ b ∈ ([5, 1, 0] : List Byte).drop 2, b = 0) :=
  (C7_check_auth_method_characterisation [5, 1, 0] (by decide)).1

/-- C8: `destroy` is idempotent: on a not-yet-destroyed session with its
local socket present, the first call sets the stage to `Destroyed`, drops
and deregisters both sockets (the remote one when present), and calls
`remove_caller` with the remote token when one exists; a call on an
already-destroyed session returns at once with no state change and no
effects. -/
theorem C8_destroy_idempotent (s : TCPProcessor)
    (h1 : s.stage ≠ HandleStage.Destroyed) (h2 : s.local_sock = true) :
    destroy s =
      some ({ s with stage := HandleStage.Destroyed, local_sock := false,
                     remote_sock := false },
            Effect.Deregister true ::
              ((if s.remote_sock then [Effect.Deregister false] else []) ++
                s.remote_token.toList.map Effect.RemoveCaller)) ∧
    (∀ s2 : TCPProcessor, s2.stage = HandleStage.Destroyed →
      destroy s2 = some (s2, [])) ∧
    destroy { s with stage := HandleStage.Destroyed, local_sock := false,
                     remote_sock := false } =
      some ({ s with stage := HandleStage.Destroyed, local_sock := false,
                     remote_sock := false }, []) := by
  refine ⟨?_, ?_, ?_⟩
  · obtain ⟨st, ic, cs, crp, ltk, rtk, ls, rs, dl, dr, sa, en⟩ := s
    cases rtk <;> cases rs <;>
      simp_all [destroy, Option.toList]
  · intro s2 h3
    simp [destroy, h3]
  · simp [destroy]

/-- C8 witness: destruction of a concrete live `Stream` session with both
sockets present, then a second call that is a no-op. -/
theorem C8_witness :
    destroy c1s0 =
      some ({ c1s0 with stage := HandleStage.Destroyed, local_sock := false,
                        remote_sock := false },
            Effect.Deregister true ::
              ((if c1s0.remote_sock then [Effect.Deregister false] else []) ++
                c1s0.remote_token.toList.map Effect.RemoveCaller)) :=
  (C8_destroy_idempotent c1s0 (by decide) (by decide)).1

/-- C9: invoking `write_to_sock` with non-empty data while the targeted
socket is absent reports no error: it returns `Success`, appends the whole
post-encryption payload to that side's output buffer, requests writable
interest, and leaves the session alive (only the buffer and the encryptor
change). -/
theorem C9_write_to_absent_sock (ks : Nat → Byte) (wres : Option Nat)
    (s : TCPProcessor) (il : Bool) (data : List Byte) (e : Encryptor)
    (d : List Byte) (tk : Nat)
    (h1 : data ≠ []) (h2 : encryptStep ks s data il = some (e, d))
    (h3 : sideSock s il = false) (h4 : sideToken s il = some tk) :
    write_to_sock ks wres s data il =
      some (ProcessResult.Success, bufAppend { s with encryptor := e } il d,
            [Effect.ChangeStatus il true]) := by
  have hlen : ¬ data.length = 0 := by
    have := List.length_pos.mpr h1
    omega
  have hd : d ≠ [] := encryptStep_some_ne_nil h1 h2
  have hdl : 0 < d.length := List.length_pos.mpr hd
  cases il <;>
    simp_all [write_to_sock, sideSock, sideToken, change_to_writable, bufAppend]

/-- C9 witness: a write of `[7]` on the remote side of a client session
whose remote socket does not exist yet buffers the ciphertext `[9, 7]`. -/
theorem C9_witness :
    write_to_sock demoKs (some 0) (c2state "peer.example") [7] false =
      some (ProcessResult.Success,
            bufAppend { c2state "peer.example" with encryptor := c9e } false [9, 7],
            [Effect.ChangeStatus false true]) :=
  C9_write_to_absent_sock demoKs (some 0) (c2state "peer.example") false [7]
    c9e [9, 7] 2 (by decide) (by decide) (by decide) (by decide)

/-- C10: `on_remote_write` assigns stage `Stream` unconditionally — it is
insensitive to the incoming stage, every successful outcome carries stage
`Stream`, and the draining of `data_to_write_to_remote` happens on the
already-updated state — and a writable-only remote event in `process`
reduces exactly to `on_remote_write`. -/
theorem C10_on_remote_write_sets_stream (ks : Nat → Byte) (wres2 : Option Nat) :
    (∀ s : TCPProcessor,
      on_remote_write ks wres2 s =
        on_remote_write ks wres2 { s with stage := HandleStage.Stream }) ∧
    (∀ (s s1 : TCPProcessor) (r : ProcessResult) (effs : List Effect),
      on_remote_write ks wres2 s = some (r, s1, effs) →
      s1.stage = HandleStage.Stream) ∧
    (∀ (saltLen : Nat) (rres : Option (List Byte)) (wres1 : Option Nat)
        (s : TCPProcessor) (tok : Nat) (ev : EventSet),
      s.remote_token = some tok → s.local_token ≠ some tok →
      ev.is_error = false → ev.is_readable = false → ev.is_hup = false →
      ev.is_writable = true →
      process ks saltLen rres wres1 wres2 s tok ev = on_remote_write ks wres2 s) := by
  refine ⟨fun s => rfl, ?_, ?_⟩
  · intro s s1 r effs h
    unfold on_remote_write at h
    split at h
    · exact absurd h (by simp)
    · rename_i res s1a effsa heq
      have hstage : s1a.stage = HandleStage.Stream := by
        split at heq
        · have h9 := send_buf_data_stage heq
          simpa using h9
        · simp only [Option.some.injEq, Prod.mk.injEq] at heq
          rw [← heq.2.1]
      split at h
      · split at h
        · exact absurd h (by simp)
        · simp only [Option.some.injEq, Prod.mk.injEq] at h
          rw [← h.2.1]
          exact hstage
      · simp only [Option.some.injEq, Prod.mk.injEq] at h
        rw [← h.2.1]
        exact hstage
  · intro saltLen rres wres1 s tok ev hr hl he hre hh hw
    cases hX : on_remote_write ks wres2 s with
    | none => simp [process, hl, hr, he, hre, hh, hw, hX]
    | some v =>
      obtain ⟨r2, s2, effs2⟩ := v
      simp [process, hl, hr, he, hre, hh, hw, hX]

/-- C10 witness: a writable-only event for the remote token of a
`Connecting` session routes through `process` to `on_remote_write`, whose
result stage is `Stream`. -/
theorem C10_witness :
    process zeroKs 1 none (some 0) (some 5)
        { c4s0 with stage := HandleStage.Connecting } 2 evWrite =
      on_remote_write zeroKs (some 5) { c4s0 with stage := HandleStage.Connecting } :=
  (C10_on_remote_write_sets_stream zeroKs (some 5)).2.2 1 none (some 0)
    { c4s0 with stage := HandleStage.Connecting } 2 evWrite
    (by decide) (by decide) (by decide) (by decide) (by decide) (by decide)

end SS
